import Mathlib

set_option maxHeartbeats 1000000

/-!
Verification of the react_agent conversational tool-calling agent
(`src/chat-agent/src/react_agent/graph.py` and `tools.py`).

The development shallowly embeds the Python code: Python values that flow
through `json.loads` and message contents are modelled by `PyVal`, the
LangChain message history by `Msg` lists, and the two graph nodes
(`call_model`, `process_tool_results`) together with the routing function
as pure Lean functions.  The tool layer of `tools.py` (pydantic input
validation and the exception-handling structure of the Quantics API
caller) is embedded with the external I/O outcomes made explicit.
-/

/-- Python values as produced by `json.loads` and passed around the agent:
strings, ints, floats (kept symbolically as their source token, since no
claim depends on float arithmetic), booleans, lists, dicts (ordered
key/value pairs, unique keys) and `None`. -/
inductive PyVal where
  | str (s : String)
  | int (n : Int)
  | float (tok : String)
  | bool (b : Bool)
  | list (xs : List PyVal)
  | dict (kvs : List (String × PyVal))
  | pynone

/-- Python `dict.get`: first binding of the key (keys are unique in a dict). -/
def dictGet (kvs : List (String × PyVal)) (k : String) : Option PyVal :=
  match kvs with
  | [] => Option.none
  | p :: rest => if p.1 = k then some p.2 else dictGet rest k

/-- Python `k in d` membership test on a dict. -/
def hasKey (kvs : List (String × PyVal)) (k : String) : Bool :=
  (dictGet kvs k).isSome

/-- Insert with Python dict semantics: an existing key keeps its position and
gets the new value; a new key is appended. -/
def pyDictInsert (kvs : List (String × PyVal)) (k : String) (v : PyVal) :
    List (String × PyVal) :=
  if hasKey kvs k then kvs.map (fun p => if p.1 = k then (p.1, v) else p)
  else kvs ++ [(k, v)]

/-- Build a dict from a pair list the way `json.loads` does (duplicate keys:
last value wins, first position kept). -/
def pyDictOfPairs (ps : List (String × PyVal)) : List (String × PyVal) :=
  ps.foldl (fun acc p => pyDictInsert acc p.1 p.2) []

/-- Whether the mantissa of a float token denotes a nonzero number, used for
Python truthiness of floats. -/
def floatTokNonzero (tok : String) : Bool :=
  if tok = "nan" || tok = "inf" || tok = "-inf" then true
  else
    (tok.data.takeWhile (fun c => !(c = 'e' || c = 'E'))).any
      (fun c => c.isDigit && !(c = '0'))

/-- Python truthiness (`bool(v)`). -/
def pyTruthy : PyVal → Bool
  | .str s => !(s == "")
  | .int n => !(n == 0)
  | .float t => floatTokNonzero t
  | .bool b => b
  | .list xs => !xs.isEmpty
  | .dict kvs => !kvs.isEmpty
  | .pynone => false

/-- Name of the Python type of a value, as it appears in `type(v)` output. -/
def pyTypeName : PyVal → String
  | .str _ => "str"
  | .int _ => "int"
  | .float _ => "float"
  | .bool _ => "bool"
  | .list _ => "list"
  | .dict _ => "dict"
  | .pynone => "NoneType"

/-- Rendering of `type(v)` in an f-string, e.g. `<class 'dict'>`. -/
def pyTypeOf (v : PyVal) : String :=
  "<class \x27" ++ pyTypeName v ++ "\x27>"

/-- Message of the AttributeError raised by `v.get(...)` on a non-dict. -/
def pyAttrGetErr (v : PyVal) : String :=
  "\x27" ++ pyTypeName v ++ "\x27 object has no attribute \x27get\x27"

/-- Python `repr` of a string (quote-selection and escape subtleties of
CPython are not modelled; no claim depends on them). -/
def pyStrRepr (s : String) : String :=
  "\x27" ++ s ++ "\x27"

mutual

/-- Python `repr(v)`. -/
def pyRepr : PyVal → String
  | .str s => pyStrRepr s
  | .int n => toString n
  | .float t => t
  | .bool b => if b then "True" else "False"
  | .pynone => "None"
  | .list xs => "[" ++ pyReprItems xs ++ "]"
  | .dict kvs => "\x7b" ++ pyReprPairs kvs ++ "\x7d"

/-- Comma-separated reprs of list items. -/
def pyReprItems : List PyVal → String
  | [] => ""
  | [x] => pyRepr x
  | x :: rest => pyRepr x ++ ", " ++ pyReprItems rest

/-- Comma-separated `'k': v` reprs of dict entries. -/
def pyReprPairs : List (String × PyVal) → String
  | [] => ""
  | [(k, v)] => pyStrRepr k ++ ": " ++ pyRepr v
  | (k, v) :: rest => pyStrRepr k ++ ": " ++ pyRepr v ++ ", " ++ pyReprPairs rest

end

/-- Python `str(v)` as used in f-strings. -/
def pyStr : PyVal → String
  | .str s => s
  | v => pyRepr v

/-- Characters stripped by Python `str.strip()`. -/
def pyIsSpace (c : Char) : Bool :=
  c = ' ' || c = '\t' || c = '\n' || c = '\r' || c = '\x0b' || c = '\x0c'

/-- List-level strip of leading and trailing Python whitespace. -/
def pyStripList (cs : List Char) : List Char :=
  ((cs.dropWhile pyIsSpace).reverse.dropWhile pyIsSpace).reverse

/-- Python `str.strip()`. -/
def pyStrip (s : String) : String :=
  String.mk (pyStripList s.data)

/-- JSON whitespace accepted by Python's `json` module. -/
def jsonWs (c : Char) : Bool :=
  c = ' ' || c = '\t' || c = '\n' || c = '\r'

/-- Value of one hex digit, if any. -/
def hexDigitVal (c : Char) : Option Nat :=
  if c.isDigit then some (c.toNat - 48)
  else if 'a' ≤ c && c ≤ 'f' then some (c.toNat - 87)
  else if 'A' ≤ c && c ≤ 'F' then some (c.toNat - 55)
  else Option.none

/-- Scan the body of a JSON string after the opening quote: fuel-based so that
it reduces in the kernel.  Returns the decoded string and the rest of the
input.  Strict mode: raw control characters and unknown escapes fail. -/
def parseJStrAux : Nat → List Char → List Char → Option (String × List Char)
  | 0, _, _ => Option.none
  | Nat.succ f, acc, cs =>
    match cs with
    | [] => Option.none
    | '"' :: rest => some (String.mk acc.reverse, rest)
    | '\\' :: esc =>
      match esc with
      | '"' :: r => parseJStrAux f ('"' :: acc) r
      | '\\' :: r => parseJStrAux f ('\\' :: acc) r
      | '/' :: r => parseJStrAux f ('/' :: acc) r
      | 'b' :: r => parseJStrAux f ('\x08' :: acc) r
      | 'f' :: r => parseJStrAux f ('\x0c' :: acc) r
      | 'n' :: r => parseJStrAux f ('\n' :: acc) r
      | 'r' :: r => parseJStrAux f ('\r' :: acc) r
      | 't' :: r => parseJStrAux f ('\t' :: acc) r
      | 'u' :: a :: b :: c :: d :: r =>
        match hexDigitVal a, hexDigitVal b, hexDigitVal c, hexDigitVal d with
        | some va, some vb, some vc, some vd =>
          parseJStrAux f
            (Char.ofNat (((va * 16 + vb) * 16 + vc) * 16 + vd) :: acc) r
        | _, _, _, _ => Option.none
      | _ => Option.none
    | c :: rest =>
      if c.toNat < 32 then Option.none else parseJStrAux f (c :: acc) rest

/-- Parse a JSON string body with enough fuel for the whole input. -/
def parseJStr (cs : List Char) : Option (String × List Char) :=
  parseJStrAux (cs.length + 1) [] cs

/-- Decimal value of a digit list. -/
def digitsToNat (ds : List Char) : Nat :=
  ds.foldl (fun a c => a * 10 + (c.toNat - 48)) 0

/-- Finish parsing a number after its integer digits: optional fraction and
exponent, mirroring the `json` module's NUMBER_RE.  An integer literal yields
`PyVal.int`; a fraction or exponent yields a symbolic `PyVal.float`. -/
def parseNumTail (sgn : Bool) (ds : List Char) (r1 : List Char) :
    Option (PyVal × List Char) :=
  let fracStep : List Char × List Char :=
    match r1 with
    | '.' :: r =>
      let fd := r.takeWhile Char.isDigit
      if fd.isEmpty then ([], r1) else ('.' :: fd, r.dropWhile Char.isDigit)
    | _ => ([], r1)
  let frac := fracStep.1
  let r2 := fracStep.2
  let expStep : List Char × List Char :=
    match r2 with
    | e :: rest =>
      if e = 'e' || e = 'E' then
        let signAndRest : List Char × List Char :=
          match rest with
          | '+' :: rr => (['+'], rr)
          | '-' :: rr => (['-'], rr)
          | _ => ([], rest)
        let ed := signAndRest.2.takeWhile Char.isDigit
        if ed.isEmpty then ([], r2)
        else (e :: (signAndRest.1 ++ ed), signAndRest.2.dropWhile Char.isDigit)
      else ([], r2)
    | _ => ([], r2)
  let expPart := expStep.1
  let r3 := expStep.2
  if frac.isEmpty && expPart.isEmpty then
    some (PyVal.int (if sgn then -(Int.ofNat (digitsToNat ds))
                     else Int.ofNat (digitsToNat ds)), r1)
  else
    some (PyVal.float (String.mk ((if sgn then ['-'] else []) ++ ds ++ frac ++ expPart)), r3)

/-- Parse a JSON number token at the head of the input. -/
def parseNumber (cs : List Char) : Option (PyVal × List Char) :=
  let signStep : Bool × List Char :=
    match cs with
    | '-' :: r => (true, r)
    | _ => (false, cs)
  let sgn := signStep.1
  let cs1 := signStep.2
  match cs1 with
  | '0' :: r1 => parseNumTail sgn ['0'] r1
  | c :: _ =>
    if c.isDigit then
      parseNumTail sgn (cs1.takeWhile Char.isDigit) (cs1.dropWhile Char.isDigit)
    else Option.none
  | [] => Option.none

/-- Parsing mode: a single value, array items, or object items; the flag
records whether we are before the first item (where `]`/`}` may close an
empty container but a trailing comma may not). -/
inductive PMode where
  | value
  | arrItems (first : Bool)
  | objItems (first : Bool)

/-- Intermediate parse results for the three modes. -/
inductive PRes where
  | v (x : PyVal)
  | vs (xs : List PyVal)
  | kvs (xs : List (String × PyVal))

/-- Recursive descent JSON parser in the style of Python's `json.loads`,
structurally recursive on fuel so that applications to literals reduce in
the kernel. -/
def parseJ : Nat → PMode → List Char → Option (PRes × List Char)
  | 0, _, _ => Option.none
  | Nat.succ f, PMode.value, cs =>
    match cs.dropWhile jsonWs with
    | '"' :: rest =>
      match parseJStr rest with
      | some p => some (PRes.v (PyVal.str p.1), p.2)
      | Option.none => Option.none
    | 't' :: 'r' :: 'u' :: 'e' :: rest => some (PRes.v (PyVal.bool true), rest)
    | 'f' :: 'a' :: 'l' :: 's' :: 'e' :: rest => some (PRes.v (PyVal.bool false), rest)
    | 'n' :: 'u' :: 'l' :: 'l' :: rest => some (PRes.v PyVal.pynone, rest)
    | 'N' :: 'a' :: 'N' :: rest => some (PRes.v (PyVal.float "nan"), rest)
    | 'I' :: 'n' :: 'f' :: 'i' :: 'n' :: 'i' :: 't' :: 'y' :: rest =>
      some (PRes.v (PyVal.float "inf"), rest)
    | '-' :: 'I' :: 'n' :: 'f' :: 'i' :: 'n' :: 'i' :: 't' :: 'y' :: rest =>
      some (PRes.v (PyVal.float "-inf"), rest)
    | '[' :: rest =>
      match parseJ f (PMode.arrItems true) rest with
      | some (PRes.vs xs, r) => some (PRes.v (PyVal.list xs), r)
      | _ => Option.none
    | '\x7b' :: rest =>
      match parseJ f (PMode.objItems true) rest with
      | some (PRes.kvs xs, r) => some (PRes.v (PyVal.dict (pyDictOfPairs xs)), r)
      | _ => Option.none
    | other =>
      match parseNumber other with
      | some p => some (PRes.v p.1, p.2)
      | Option.none => Option.none
  | Nat.succ f, PMode.arrItems first, cs =>
    match first, cs.dropWhile jsonWs with
    | true, ']' :: rest => some (PRes.vs [], rest)
    | _, cs' =>
      match parseJ f PMode.value cs' with
      | some (PRes.v x, r) =>
        (match r.dropWhile jsonWs with
         | ',' :: r2 =>
           match parseJ f (PMode.arrItems false) r2 with
           | some (PRes.vs xs, r3) => some (PRes.vs (x :: xs), r3)
           | _ => Option.none
         | ']' :: r2 => some (PRes.vs [x], r2)
         | _ => Option.none)
      | _ => Option.none
  | Nat.succ f, PMode.objItems first, cs =>
    match first, cs.dropWhile jsonWs with
    | true, '\x7d' :: rest => some (PRes.kvs [], rest)
    | _, cs' =>
      match cs' with
      | '"' :: kr =>
        match parseJStr kr with
        | some (k, r1) =>
          (match r1.dropWhile jsonWs with
           | ':' :: r2 =>
             match parseJ f PMode.value r2 with
             | some (PRes.v x, r3) =>
               (match r3.dropWhile jsonWs with
                | ',' :: r4 =>
                  match parseJ f (PMode.objItems false) r4 with
                  | some (PRes.kvs xs, r5) => some (PRes.kvs ((k, x) :: xs), r5)
                  | _ => Option.none
                | '\x7d' :: r4 => some (PRes.kvs [(k, x)], r4)
                | _ => Option.none)
             | _ => Option.none
           | _ => Option.none)
        | Option.none => Option.none
      | _ => Option.none

/-- Python `json.loads` on a string: parse one value and require only
whitespace after it. -/
def json_loads (s : String) : Option PyVal :=
  match parseJ (2 * s.data.length + 4) PMode.value s.data with
  | some (PRes.v v, rest) =>
    if (rest.dropWhile jsonWs).isEmpty then some v else Option.none
  | _ => Option.none


/-- LangChain tool call: opaque id, tool name, argument mapping
(`graph.py`, data carried on an AIMessage). -/
structure ToolCall where
  id : String
  name : String
  args : List (String × PyVal)

/-- Conversation messages (LangChain message kinds used by the agent).
`ai` carries the optional message id and the list of tool calls;
`tool` carries its string content and the originating `tool_call_id`. -/
inductive Msg where
  | system (content : String)
  | human (content : String)
  | ai (id : Option String) (content : String) (tool_calls : List ToolCall)
  | tool (content : String) (tool_call_id : String)

/-- Message id used by the `add_messages` reducer; only AI messages carry an
explicit id in this system. -/
def msgId : Msg → Option String
  | .ai i _ _ => i
  | _ => Option.none

/-- Whether a message carries the given id. -/
def msgIdIs (m : Msg) (i : String) : Bool :=
  match msgId m with
  | some j => j = i
  | Option.none => false

/-- One step of the LangGraph `add_messages` reducer: a new message whose id
matches an existing one replaces it in place, otherwise it is appended. -/
def addOneMessage (acc : List Msg) (m : Msg) : List Msg :=
  match msgId m with
  | some i =>
    if acc.any (fun x => msgIdIs x i) then
      acc.map (fun x => if msgIdIs x i then m else x)
    else acc ++ [m]
  | Option.none => acc ++ [m]

/-- LangGraph `add_messages` reducer over a whole update. -/
def addMessages (hist upd : List Msg) : List Msg :=
  upd.foldl addOneMessage hist

/-- Agent state: message history plus the `is_last_step` flag managed by
LangGraph (`state.py` / `graph.py`). -/
structure AgentState where
  messages : List Msg
  is_last_step : Bool

/-- Model reply received inside `call_model` (the model service is an
external collaborator, so the reply is a parameter of the embedding). -/
structure AIResponse where
  id : Option String
  content : String
  tool_calls : List ToolCall

/-- Fixed apology text substituted on forced termination
(`graph.py` line 72). -/
def apologyText : String :=
  "Sorry, I could not find an answer to your question in the specified number of steps."

/-- Embeds `call_model` (`graph.py` lines 66-78): on the last step with a
tool-calling reply, the reply is discarded and the apology message (with the
reply's id) is returned; otherwise the reply itself is returned. -/
def call_model_update (s : AgentState) (r : AIResponse) : List Msg :=
  if s.is_last_step && !r.tool_calls.isEmpty then
    [Msg.ai r.id apologyText []]
  else
    [Msg.ai r.id r.content r.tool_calls]

/-- Embeds `route_model_output` (`graph.py` lines 145-158): routes on the
tool calls of the last message; a non-AI last message has no `tool_calls`
attribute in Python, which is modelled as `none`. -/
def route_model_output (last : Msg) : Option String :=
  match last with
  | .ai _ _ tcs => some (if tcs.isEmpty then "__end__" else "tools")
  | _ => Option.none

/-- Header line of every tool execution summary (`graph.py` line 91). -/
def summaryHeader : String := "Tool execution summary:\n"

/-- Embeds the summary construction of `process_tool_results`
(`graph.py` lines 90-124 plus the `strip()` of line 128) as a function of the
tool message's string content. -/
def summarize (content : String) : String :=
  match json_loads content with
  | some (PyVal.dict kvs) =>
    (match dictGet kvs "success", dictGet kvs "error" with
     | some (PyVal.bool false), some e =>
       if pyTruthy e then
         pyStrip (summaryHeader ++ "Tool reported failure: " ++ pyStr e ++ "\n")
       else
         pyStrip (summaryHeader ++ "Tool Result (parsed dict): " ++
           pyStr (PyVal.dict kvs) ++ "\n")
     | _, _ =>
       pyStrip (summaryHeader ++ "Tool Result (parsed dict): " ++
         pyStr (PyVal.dict kvs) ++ "\n"))
  | some (PyVal.str _) => pyStrip summaryHeader
  | some v =>
    pyStrip (summaryHeader ++ "Received unexpected tool output format: " ++
      pyTypeOf v ++ "\nContent: " ++ pyStr v ++ "\n")
  | Option.none =>
    pyStrip (summaryHeader ++ "Received non-JSON string output: " ++ content ++ "\n")

/-- Embeds `process_tool_results` (`graph.py` lines 82-128): `none` models
the IndexError on an empty history; a non-tool last message yields the empty
update; a tool last message yields one summary AI message whose id is
`ai_tool_summary_` followed by the originating `tool_call_id`. -/
def process_tool_results (msgs : List Msg) : Option (List Msg) :=
  match msgs.getLast? with
  | Option.none => Option.none
  | some (Msg.tool content cid) =>
    some [Msg.ai (some ("ai_tool_summary_" ++ cid)) (summarize content) []]
  | some _ => some []

/-- Whether a message is a tool-result message. -/
def isToolMsg : Msg → Bool
  | .tool _ _ => true
  | _ => false

/-- Embeds the LangGraph `ToolNode` over the allow-listed tools
(`graph.py` line 137): one tool message per call, in call order, each
carrying the executed result content and the originating call id.  Tool
execution itself is an external collaborator, passed as `exec`. -/
def tool_node (calls : List ToolCall) (exec : ToolCall → String) : List Msg :=
  calls.map (fun c => Msg.tool (exec c) c.id)


/-- Allowed asset codes from the `AssetCode` Literal
(`tools.py` lines 19-23). -/
def allowedAssets : List String :=
  ["ES", "NQ", "DOW", "RUSS", "VIX", "EURUSD", "BP", "AUD", "JY",
   "GC", "HG", "SI", "PL", "CL", "NG", "CORN",
   "BTCUSDT", "ETHUSDT", "BNBUSDT", "XRPUSDT", "SOLUSDT"]

/-- Raw tool input after pydantic field-type coercion of
`QuanticsToolInput` (`tools.py` lines 25-59): `time_filters` values are
already lists of booleans and `trading_hours` values integers, matching the
declared field types `Dict[str, List[bool]]` and `Dict[str, int]`. -/
structure RawToolInput where
  asset : String
  start_date : Int
  end_date : Int
  bar_period : Int
  time_filters : List (String × List Bool)
  trading_hours : List (String × Int)

/-- First binding of a key in an association list (Python dict lookup). -/
def dlookup (kvs : List (String × α)) (k : String) : Option α :=
  match kvs with
  | [] => Option.none
  | p :: rest => if p.1 = k then some p.2 else dlookup rest k

/-- Python `set(keys) == expected` comparison. -/
def keySetEq (ks es : List String) : Bool :=
  es.all (fun e => ks.contains e) && ks.all (fun k => es.contains k)

/-- Embeds `validate_time_filters_structure` (`tools.py` lines 69-94) at the
accept/reject level: exact key set and exact lengths 12/5/31.  The
`isinstance(item, bool)` checks are vacuous after field coercion. -/
def validate_time_filters_structure (v : List (String × List Bool)) : Bool :=
  keySetEq (v.map Prod.fst) ["months", "daysOfWeek", "daysOfMonth"] &&
  (match dlookup v "months" with
   | some l => decide (l.length = 12)
   | Option.none => false) &&
  (match dlookup v "daysOfWeek" with
   | some l => decide (l.length = 5)
   | Option.none => false) &&
  (match dlookup v "daysOfMonth" with
   | some l => decide (l.length = 31)
   | Option.none => false)

/-- Range check of one trading-hours field: present and within `0..hi`. -/
def thRange (o : Option Int) (hi : Int) : Bool :=
  match o with
  | some x => decide (0 ≤ x) && decide (x ≤ hi)
  | Option.none => false

/-- Embeds `validate_trading_hours_structure` (`tools.py` lines 96-124):
exact key set, then each of the four fields checked against its clock
range. -/
def validate_trading_hours_structure (v : List (String × Int)) : Bool :=
  keySetEq (v.map Prod.fst) ["startHour", "startMin", "endHour", "endMin"] &&
  thRange (dlookup v "startHour") 23 &&
  thRange (dlookup v "startMin") 59 &&
  thRange (dlookup v "endHour") 23 &&
  thRange (dlookup v "endMin") 59

/-- Embeds the whole `QuanticsToolInput` validation (field constraints
`ge`/`le` of lines 27-59, the `end_date` cross-validator of lines 61-67 with
its Python truthiness guard on `start_date`, and the two structure
validators): `true` iff pydantic accepts the input. -/
def validateQuanticsInput (i : RawToolInput) : Bool :=
  allowedAssets.contains i.asset &&
  decide (20120101 ≤ i.start_date) && decide (i.start_date ≤ 20241231) &&
  decide (20120101 ≤ i.end_date) && decide (i.end_date ≤ 20241231) &&
  (decide (i.start_date = 0) || decide (i.start_date ≤ i.end_date)) &&
  decide (1 ≤ i.bar_period) &&
  validate_time_filters_structure i.time_filters &&
  validate_trading_hours_structure i.trading_hours

/-- Response model of the Quantics tools (`tools.py` lines 125-130). -/
structure QuanticsApiResponseModel where
  success : Bool
  charts_html : Option String := Option.none
  metadata : Option (List (String × PyVal)) := Option.none
  error : Option String := Option.none

/-- Outcome of the external login HTTP call inside `get_quantics_auth`:
either a parsed 2xx JSON body, an HTTP status error, a transport error, or
any other exception (including a body that fails JSON decoding). -/
inductive AuthOutcome where
  | response (data : PyVal)
  | httpStatusError (code : Nat) (text : String)
  | requestError (msg : String)
  | otherError (msg : String)

/-- Embeds `get_quantics_auth` (`tools.py` lines 141-197) over an explicit
login outcome.  `Except.error` carries the message of the RuntimeError the
function raises.  Note that the RuntimeError raised for a rejected login
(line 189) is itself caught by the `except Exception` clause of line 195 and
re-wrapped, which the embedding reproduces. -/
def get_quantics_auth : AuthOutcome → Except String (PyVal × PyVal)
  | .response (PyVal.dict kvs) =>
    if pyTruthy ((dictGet kvs "success").getD PyVal.pynone) &&
        hasKey kvs "uid" && hasKey kvs "token" then
      Except.ok ((dictGet kvs "uid").getD PyVal.pynone,
                 (dictGet kvs "token").getD PyVal.pynone)
    else
      Except.error
        ("An unexpected error occurred during Quantics login: Quantics login failed: " ++
          pyStr ((dictGet kvs "error").getD
            (PyVal.str "Login failed, unexpected response format.")))
  | .response v =>
    Except.error ("An unexpected error occurred during Quantics login: " ++
      pyAttrGetErr v)
  | .httpStatusError code text =>
    Except.error ("Quantics login HTTP error: " ++ toString code ++ " - " ++ text)
  | .requestError m =>
    Except.error ("Quantics login request error: " ++ m)
  | .otherError m =>
    Except.error ("An unexpected error occurred during Quantics login: " ++ m)

/-- Outcome of the statistics HTTP call inside `_call_quantics_stat_api`. -/
inductive ApiOutcome where
  | response (data : PyVal)
  | badJson (msg : String)
  | httpStatusError (code : Nat) (text : String)
  | requestError (msg : String)
  | otherError (msg : String)

/-- Pydantic v1 coercion into `bool` for the `success` field. -/
def pydanticBool : PyVal → Option Bool
  | .bool b => some b
  | .int 0 => some false
  | .int 1 => some true
  | .str s =>
    if ["1", "on", "t", "true", "y", "yes"].contains s.toLower then some true
    else if ["0", "off", "f", "false", "n", "no"].contains s.toLower then some false
    else Option.none
  | _ => Option.none

/-- Pydantic v1 coercion into `Optional[str]`. -/
def pydanticOptStr : PyVal → Option (Option String)
  | .pynone => some Option.none
  | .str s => some (some s)
  | .int n => some (some (toString n))
  | .float t => some (some t)
  | .bool b => some (some (if b then "True" else "False"))
  | _ => Option.none

/-- Stand-in text for the message of a pydantic ValidationError; only its
non-emptiness matters to any claim. -/
def pydanticValidationMsg : String :=
  "validation error for QuanticsApiResponseModel"

/-- Failure constructor used by the `except` clauses of
`_call_quantics_stat_api`. -/
def apiFailure (e : String) : QuanticsApiResponseModel :=
  { success := false, error := some e }

/-- Embeds the 2xx-response processing of `_call_quantics_stat_api`
(`tools.py` lines 251-277): the missing-keys ValueError, the
AttributeError from `.get` on a non-dict (caught by the generic handler),
and pydantic coercion of the response fields.  A non-dict body is folded
into the missing-keys processing error. -/
def quanticsParseResponse (body : PyVal) : QuanticsApiResponseModel :=
  match body with
  | PyVal.dict kvs =>
    if !(hasKey kvs "data" && hasKey kvs "metadata") then
      apiFailure ("API response processing error: " ++
        "API response missing expected \x27data\x27 or \x27metadata\x27 keys.")
    else
      (match (dictGet kvs "metadata").getD (PyVal.dict []) with
       | PyVal.dict mkvs =>
         (match (dictGet kvs "data").getD (PyVal.dict []) with
          | PyVal.dict dkvs =>
            (match pydanticBool ((dictGet mkvs "success").getD (PyVal.bool false)),
                   pydanticOptStr ((dictGet dkvs "charts_html").getD PyVal.pynone),
                   pydanticOptStr ((dictGet kvs "error").getD PyVal.pynone) with
             | some sb, some ch, some er =>
               { success := sb, charts_html := ch, metadata := some mkvs, error := er }
             | _, _, _ =>
               apiFailure ("API response processing error: " ++ pydanticValidationMsg))
          | dv => apiFailure ("An unexpected error occurred: " ++ pyAttrGetErr dv))
       | mv => apiFailure ("An unexpected error occurred: " ++ pyAttrGetErr mv))
  | _ =>
    apiFailure ("API response processing error: " ++
      "API response missing expected \x27data\x27 or \x27metadata\x27 keys.")

/-- Embeds `_call_quantics_stat_api` (`tools.py` lines 202-281) over the
explicit outcomes of its two external calls: every exception branch returns
a structured failure payload instead of propagating. -/
def call_quantics_stat_api (auth : AuthOutcome) (api : ApiOutcome) :
    QuanticsApiResponseModel :=
  match get_quantics_auth auth with
  | Except.error e => apiFailure ("Authentication failed: " ++ e)
  | Except.ok _ =>
    match api with
    | ApiOutcome.httpStatusError code text =>
      apiFailure ("API HTTP error " ++ toString code ++ ": " ++ text)
    | ApiOutcome.requestError m => apiFailure ("API request error: " ++ m)
    | ApiOutcome.badJson m => apiFailure ("API response processing error: " ++ m)
    | ApiOutcome.otherError m => apiFailure ("An unexpected error occurred: " ++ m)
    | ApiOutcome.response body => quanticsParseResponse body

/-- Whether the login step of the handler raised (and was caught). -/
def isAuthError (auth : AuthOutcome) : Bool :=
  match get_quantics_auth auth with
  | Except.error _ => true
  | Except.ok _ => false

/-- Whether the statistics HTTP call itself raised: HTTP status error,
transport error, JSON decoding error, or any other exception. -/
def isApiException (api : ApiOutcome) : Bool :=
  match api with
  | ApiOutcome.response _ => false
  | _ => true

/-- Whether a 2xx response body fails the structural check of line 254
(missing `data`/`metadata`), raising the ValueError caught at line 275. -/
def responseMissingKeys (api : ApiOutcome) : Bool :=
  match api with
  | ApiOutcome.response (PyVal.dict kvs) => !(hasKey kvs "data" && hasKey kvs "metadata")
  | ApiOutcome.response _ => true
  | _ => false


/-- Whether a string is nonempty and does not end in Python whitespace (so
`str.strip()` leaves its tail intact). -/
def pyNoTrailingWs (s : String) : Bool :=
  match s.data.getLast? with
  | some d => !pyIsSpace d
  | Option.none => false

/-- Whether a message is a tool-summary message produced by
`process_tool_results` (recognised by its derived id). -/
def isSummaryMsg (m : Msg) : Bool :=
  match msgId m with
  | some i => "ai_tool_summary_".data.isPrefixOf i.data
  | Option.none => false

/-- Number of tool-summary messages in a history. -/
def countSummaries (msgs : List Msg) : Nat :=
  (msgs.filter isSummaryMsg).length

/-- Concrete two-call batch used to test the summary count. -/
def exCall1 : ToolCall := { id := "call_1", name := "Volatility", args := [] }

/-- Second call of the concrete batch. -/
def exCall2 : ToolCall := { id := "call_2", name := "Volume", args := [] }

/-- Concrete tool executor for the two-call batch. -/
def exExec : ToolCall → String :=
  fun c => if c.id = "call_1" then "\x7b\"success\": true\x7d" else "ok"

/-- History ending in an assistant message with a batch of two tool calls. -/
def exHist : List Msg :=
  [Msg.human "What is BTC doing?", Msg.ai (some "ai_1") "" [exCall1, exCall2]]

/-- History after the tools node ran both calls. -/
def exAfterTools : List Msg :=
  addMessages exHist (tool_node [exCall1, exCall2] exExec)

/-- History after `process_tool_results` ran on the tool outputs. -/
def exFinal : List Msg :=
  addMessages exAfterTools ((process_tool_results exAfterTools).getD [])

/-- Concrete structured failure payload as serialized by the tool node. -/
def exC3 : String := "\x7b\"success\": false, \"error\": \"X\"\x7d"

/-- Valid `time_filters` mapping (12/5/31 booleans). -/
def exGoodTF : List (String × List Bool) :=
  [("months", List.replicate 12 true), ("daysOfWeek", List.replicate 5 true),
   ("daysOfMonth", List.replicate 31 false)]

/-- `time_filters` mapping whose months list has 11 entries. -/
def exBadTF : List (String × List Bool) :=
  [("months", List.replicate 11 true), ("daysOfWeek", List.replicate 5 true),
   ("daysOfMonth", List.replicate 31 false)]

/-- Fully valid concrete tool input. -/
def exGoodInput : RawToolInput :=
  { asset := "ES", start_date := 20230101, end_date := 20231231, bar_period := 60,
    time_filters := exGoodTF,
    trading_hours := [("startHour", 9), ("startMin", 30), ("endHour", 16), ("endMin", 0)] }

theorem snoc_getLast? (l : List α) (a : α) : (l ++ [a]).getLast? = some a := by
  rw [List.getLast?_append_of_ne_nil l (by simp)]
  rfl

theorem dropWhile_head_false {p : Char → Bool} {c : Char} (l : List Char)
    (hc : p c = false) : (c :: l).dropWhile p = c :: l := by
  simp [List.dropWhile_cons, hc]

theorem pyStripList_wrap (t m : List Char) (c d : Char)
    (hc : pyIsSpace c = false) (hd : pyIsSpace d = false) :
    pyStripList (((c :: t) ++ (m ++ [d])) ++ ['\n']) = (c :: t) ++ (m ++ [d]) := by
  unfold pyStripList
  have e1 : (((c :: t) ++ (m ++ [d])) ++ ['\n']) = c :: (t ++ (m ++ [d]) ++ ['\n']) := by
    simp
  rw [e1, dropWhile_head_false _ hc]
  have e2 : (c :: (t ++ (m ++ [d]) ++ ['\n'])).reverse =
      '\n' :: (d :: (m.reverse ++ (t.reverse ++ [c]))) := by
    simp
  rw [e2, List.dropWhile_cons]
  have hnl : pyIsSpace '\n' = true := by decide
  rw [hnl]
  simp only [if_true]
  rw [dropWhile_head_false _ hd]
  simp

theorem string_mk_data (s : String) : String.mk s.data = s := by
  cases s
  rfl

theorem pyStrip_concat_eq (lit X : String)
    (h2 : pyIsSpace (lit.data.headD ' ') = false)
    (h3 : ∃ d, X.data.getLast? = some d ∧ pyIsSpace d = false) :
    pyStrip ((lit ++ X) ++ "\n") = lit ++ X := by
  obtain ⟨d, hg, hd⟩ := h3
  obtain ⟨m, hm⟩ : ∃ m, X.data = m ++ [d] := by
    rcases List.eq_nil_or_concat X.data with hnil | ⟨m, e, hme⟩
    · rw [hnil] at hg
      cases hg
    · rw [List.concat_eq_append] at hme
      rw [hme, snoc_getLast?] at hg
      injection hg with he
      exact ⟨m, by rw [hme, he]⟩
  cases hl : lit.data with
  | nil =>
    rw [hl] at h2
    simp [pyIsSpace] at h2
  | cons c t =>
    rw [hl] at h2
    simp only [List.headD_cons] at h2
    unfold pyStrip
    have hdata : ((lit ++ X) ++ "\n").data = ((c :: t) ++ (m ++ [d])) ++ ['\n'] := by
      rw [String.data_append, String.data_append, hl, hm]
    rw [hdata, pyStripList_wrap t m c d h2 hd]
    have hLX : (lit ++ X).data = (c :: t) ++ (m ++ [d]) := by
      rw [String.data_append, hl, hm]
    rw [← hLX, string_mk_data]

theorem append_ne_empty (a b : String) (ha : a ≠ "") : a ++ b ≠ "" := by
  intro hab
  apply ha
  have hd : (a ++ b).data = [] := by rw [hab]
  rw [String.data_append] at hd
  have hA : a.data = [] := (List.append_eq_nil.mp hd).1
  cases a
  simp_all

theorem addMessages_of_none :
    ∀ (upd h : List Msg), (∀ m ∈ upd, msgId m = Option.none) →
      addMessages h upd = h ++ upd := by
  intro upd
  induction upd with
  | nil => intro h _; simp [addMessages]
  | cons m rest ih =>
    intro h hids
    have hm : msgId m = Option.none := hids m (by simp)
    have step : addMessages h (m :: rest) = addMessages (h ++ [m]) rest := by
      simp [addMessages, addOneMessage, hm]
    rw [step, ih (h ++ [m]) (fun x hx => hids x (by simp [hx]))]
    simp

theorem msgId_tool_node (calls : List ToolCall) (exec : ToolCall → String) :
    ∀ m ∈ tool_node calls exec, msgId m = Option.none := by
  intro m hm
  simp only [tool_node, List.mem_map] at hm
  obtain ⟨c, _, hc⟩ := hm
  rw [← hc]
  rfl

/-- C2: in every conversation state whose `is_last_step` flag is set, when
the model reply carries at least one tool call, `call_model` discards the
reply and returns the single assistant message with exactly the fixed
apology content and no tool calls, and routing that message reaches the
terminal state (so no tool is invoked). -/
theorem c2_forced_termination (msgs : List Msg) (rid : Option String)
    (rc : String) (tc : ToolCall) (rest : List ToolCall) :
    call_model_update { messages := msgs, is_last_step := true }
        { id := rid, content := rc, tool_calls := tc :: rest } =
      [Msg.ai rid "Sorry, I could not find an answer to your question in the specified number of steps." []] ∧
    route_model_output (Msg.ai rid apologyText []) = some "__end__" := by
  constructor
  · simp [call_model_update, apologyText]
  · rfl

/-- C7: whenever the last message of the history is not a tool-result
message, `process_tool_results` neither raises (the result is `some`) nor
changes the state: the update is empty and reducing it leaves the history
unchanged. -/
theorem c7_non_tool_last_message_noop (h : List Msg) (m : Msg)
    (hm : isToolMsg m = false) :
    process_tool_results (h ++ [m]) = some [] ∧
    addMessages (h ++ [m]) [] = h ++ [m] := by
  constructor
  · rw [process_tool_results, snoc_getLast?]
    cases m with
    | tool content cid => simp [isToolMsg] at hm
    | system c => rfl
    | human c => rfl
    | ai i c tcs => rfl
  · rfl

/-- C8: summarization is deterministic and idempotent (it is a pure
function, so summarizing the same tool result twice yields the same
string), and the id of the summary message produced by
`process_tool_results` is the deterministic function
`ai_tool_summary_ ++ call id` of the originating tool call id alone,
independent of the result content and of the rest of the history. -/
theorem c8_summarization_deterministic :
    (∀ content : String, summarize content = summarize content) ∧
    (∀ (h : List Msg) (content cid : String),
      process_tool_results (h ++ [Msg.tool content cid]) =
        some [Msg.ai (some ("ai_tool_summary_" ++ cid)) (summarize content) []]) := by
  refine ⟨fun _ => rfl, fun h content cid => ?_⟩
  rw [process_tool_results, snoc_getLast?]

/-- C9: a tool result whose raw string JSON-parses to a string is
summarized as the bare header line: the decoded payload is dropped. -/
theorem c9_json_string_payload_dropped (s t : String)
    (h : json_loads s = some (PyVal.str t)) :
    summarize s = "Tool execution summary:" := by
  unfold summarize
  rw [h]
  rfl

/-- Witness for C9 at the five-character input `"hi"` (with quotes). -/
theorem c9_witness :
    json_loads "\"hi\"" = some (PyVal.str "hi") ∧
    summarize "\"hi\"" = "Tool execution summary:" :=
  ⟨rfl, c9_json_string_payload_dropped "\"hi\"" "hi" rfl⟩

theorem map_keep_of_no_id (i : String) (new : Msg) :
    ∀ (h : List Msg), (∀ m ∈ h, msgId m ≠ some i) →
      (h.map fun x => if msgIdIs x i = true then new else x) = h := by
  intro h
  induction h with
  | nil => intro _; rfl
  | cons a as ih =>
    intro hh
    have ha : msgId a ≠ some i := hh a (by simp)
    have has : ∀ m ∈ as, msgId m ≠ some i := fun m hm => hh m (by simp [hm])
    simp only [List.map_cons]
    rw [ih has]
    have hmi : msgIdIs a i = false := by
      unfold msgIdIs
      cases hma : msgId a with
      | none => rfl
      | some j =>
        have hji : ¬(j = i) := by
          intro hji
          exact ha (by rw [hma, hji])
        simp [hji]
    simp [hmi]

/-- C10: on forced termination the substituted apology message carries the
id of the discarded tool-call reply, so the `add_messages` reducer applied
to a history containing a message with that id replaces it in place instead
of appending. -/
theorem c10_apology_reuses_reply_id (msgs h : List Msg) (i rc : String)
    (tc : ToolCall) (rest : List ToolCall)
    (hh : ∀ m ∈ h, msgId m ≠ some i) :
    (call_model_update { messages := msgs, is_last_step := true }
        { id := some i, content := rc, tool_calls := tc :: rest }).map msgId =
      [some i] ∧
    addMessages (h ++ [Msg.ai (some i) rc (tc :: rest)])
        (call_model_update { messages := msgs, is_last_step := true }
          { id := some i, content := rc, tool_calls := tc :: rest }) =
      h ++ [Msg.ai (some i) apologyText []] := by
  have hup : call_model_update { messages := msgs, is_last_step := true }
      { id := some i, content := rc, tool_calls := tc :: rest } =
      [Msg.ai (some i) apologyText []] := by
    simp [call_model_update]
  refine ⟨by rw [hup]; rfl, ?_⟩
  rw [hup]
  have hstep : addMessages (h ++ [Msg.ai (some i) rc (tc :: rest)])
      [Msg.ai (some i) apologyText []] =
      addOneMessage (h ++ [Msg.ai (some i) rc (tc :: rest)])
        (Msg.ai (some i) apologyText []) := rfl
  rw [hstep]
  unfold addOneMessage
  show (if ((h ++ [Msg.ai (some i) rc (tc :: rest)]).any fun x => msgIdIs x i) = true then
      List.map (fun x => if msgIdIs x i = true then Msg.ai (some i) apologyText [] else x)
        (h ++ [Msg.ai (some i) rc (tc :: rest)])
    else (h ++ [Msg.ai (some i) rc (tc :: rest)]) ++ [Msg.ai (some i) apologyText []]) =
    h ++ [Msg.ai (some i) apologyText []]
  have hany : ((h ++ [Msg.ai (some i) rc (tc :: rest)]).any
      (fun x => msgIdIs x i)) = true := by
    simp [List.any_append, msgIdIs, msgId]
  rw [hany]
  simp only [if_true]
  rw [List.map_append]
  rw [map_keep_of_no_id i (Msg.ai (some i) apologyText []) h hh]
  simp [msgIdIs, msgId]

theorem noTrailingWs_getLast (X : String) (hw : pyNoTrailingWs X = true) :
    ∃ d, X.data.getLast? = some d ∧ pyIsSpace d = false := by
  unfold pyNoTrailingWs at hw
  cases hg : X.data.getLast? with
  | none => rw [hg] at hw; cases hw
  | some d =>
    rw [hg] at hw
    simp at hw
    exact ⟨d, rfl, hw⟩

theorem noTrailingWs_ne_empty (X : String) (hw : pyNoTrailingWs X = true) :
    ¬(X = "") := by
  obtain ⟨d, hg, _⟩ := noTrailingWs_getLast X hw
  intro hX0
  rw [hX0] at hg
  cases hg

/-- C1 counterexample: for the concrete batch of two tool calls, after the
tools node and `process_tool_results` run, exactly one tool-summary message
has been appended to the history, not one per call: the count differs from
the batch size 2. -/
theorem c1_counterexample :
    countSummaries exHist = 0 ∧
    countSummaries exFinal = 1 ∧
    [exCall1, exCall2].length = 2 ∧
    ¬(countSummaries exFinal - countSummaries exHist = [exCall1, exCall2].length) := by
  decide

/-- C1 (amended): for every batch of tool calls (written `init ++ [lastC]`,
so of size N ≥ 1), the tools node appends one tool message per call in call
order, and `process_tool_results` then produces an update consisting of
exactly ONE tool-summary message, matched by id to the LAST call of the
batch (`ai_tool_summary_` followed by that call's id) and summarizing that
call's result only. -/
theorem c1_single_summary_for_batch (hist : List Msg) (aid : Option String)
    (content : String) (init : List ToolCall) (lastC : ToolCall)
    (exec : ToolCall → String) :
    addMessages (hist ++ [Msg.ai aid content (init ++ [lastC])])
        (tool_node (init ++ [lastC]) exec) =
      (hist ++ [Msg.ai aid content (init ++ [lastC])]) ++ tool_node (init ++ [lastC]) exec ∧
    process_tool_results ((hist ++ [Msg.ai aid content (init ++ [lastC])]) ++
        tool_node (init ++ [lastC]) exec) =
      some [Msg.ai (some ("ai_tool_summary_" ++ lastC.id)) (summarize (exec lastC)) []] := by
  constructor
  · exact addMessages_of_none _ _ (msgId_tool_node _ _)
  · have htn : tool_node (init ++ [lastC]) exec =
        (init.map (fun c => Msg.tool (exec c) c.id)) ++ [Msg.tool (exec lastC) lastC.id] := by
      simp [tool_node]
    rw [htn]
    rw [show (hist ++ [Msg.ai aid content (init ++ [lastC])]) ++
        ((init.map fun c => Msg.tool (exec c) c.id) ++ [Msg.tool (exec lastC) lastC.id]) =
        ((hist ++ [Msg.ai aid content (init ++ [lastC])]) ++
          (init.map fun c => Msg.tool (exec c) c.id)) ++ [Msg.tool (exec lastC) lastC.id]
      from by simp]
    rw [process_tool_results, snoc_getLast?]

/-- C3 counterexample: the structured failure payload with error "X" is not
summarized to exactly the string "Tool reported failure: X"; the produced
summary carries the fixed header line in front. -/
theorem c3_counterexample :
    summarize exC3 = "Tool execution summary:\nTool reported failure: X" ∧
    summarize exC3 ≠ "Tool reported failure: X" := by
  constructor
  · rfl
  · decide

/-- C3 (amended): a tool result that JSON-parses to a mapping with
`success == false` and a non-empty `error` string X (not ending in
whitespace, which `strip()` would eat) is summarized to the fixed header
line followed by exactly "Tool reported failure: X"; and a raw string that
does not parse as JSON (and does not end in whitespace) is summarized to
the header followed by the marker "Received non-JSON string output: " and
the raw string itself. -/
theorem c3_failure_and_nonjson_summaries :
    (∀ (s X : String) (kvs : List (String × PyVal)),
      json_loads s = some (PyVal.dict kvs) →
      dictGet kvs "success" = some (PyVal.bool false) →
      dictGet kvs "error" = some (PyVal.str X) →
      pyNoTrailingWs X = true →
      summarize s = "Tool execution summary:\nTool reported failure: " ++ X) ∧
    (∀ s : String, json_loads s = Option.none → pyNoTrailingWs s = true →
      summarize s = "Tool execution summary:\nReceived non-JSON string output: " ++ s) := by
  constructor
  · intro s X kvs hj hs he hw
    have hXne : ¬(X = "") := noTrailingWs_ne_empty X hw
    have htr : pyTruthy (PyVal.str X) = true := by
      simp [pyTruthy, hXne]
    unfold summarize
    simp only [hj, hs, he, htr, if_true, pyStr]
    rw [pyStrip_concat_eq (summaryHeader ++ "Tool reported failure: ") X
      (by decide) (noTrailingWs_getLast X hw)]
    rw [show summaryHeader ++ "Tool reported failure: " =
      "Tool execution summary:\nTool reported failure: " by decide]
  · intro s hj hw
    unfold summarize
    simp only [hj]
    rw [pyStrip_concat_eq (summaryHeader ++ "Received non-JSON string output: ") s
      (by decide) (noTrailingWs_getLast s hw)]
    rw [show summaryHeader ++ "Received non-JSON string output: " =
      "Tool execution summary:\nReceived non-JSON string output: " by decide]

/-- Witness for C3 at the concrete failure payload and at "hello". -/
theorem c3_witness :
    summarize exC3 = "Tool execution summary:\nTool reported failure: " ++ "X" ∧
    summarize "hello" = "Tool execution summary:\nReceived non-JSON string output: " ++ "hello" :=
  ⟨c3_failure_and_nonjson_summaries.1 exC3 "X"
      [("success", PyVal.bool false), ("error", PyVal.str "X")] rfl rfl rfl rfl,
   c3_failure_and_nonjson_summaries.2 "hello" rfl rfl⟩

/-- Witness for C7 at a history ending in a human message. -/
theorem c7_witness :
    isToolMsg (Msg.human "hi") = false ∧
    process_tool_results ([Msg.system "s"] ++ [Msg.human "hi"]) = some [] ∧
    addMessages ([Msg.system "s"] ++ [Msg.human "hi"]) [] =
      [Msg.system "s"] ++ [Msg.human "hi"] :=
  ⟨rfl, (c7_non_tool_last_message_noop [Msg.system "s"] (Msg.human "hi") rfl).1,
        (c7_non_tool_last_message_noop [Msg.system "s"] (Msg.human "hi") rfl).2⟩

/-- Witness for C10: with the discarded reply in the history, the reducer
replaces it with the apology message carrying the same id. -/
theorem c10_witness :
    addMessages ([Msg.human "q"] ++ [Msg.ai (some "ai_1") "reply" (exCall1 :: [])])
        (call_model_update { messages := [], is_last_step := true }
          { id := some "ai_1", content := "reply", tool_calls := exCall1 :: [] }) =
      [Msg.human "q"] ++ [Msg.ai (some "ai_1") apologyText []] := by
  have hh : ∀ m ∈ [Msg.human "q"], msgId m ≠ some "ai_1" := by
    intro m hm
    simp at hm
    subst hm
    simp [msgId]
  exact (c10_apology_reuses_reply_id [] [Msg.human "q"] "ai_1" "reply" exCall1 [] hh).2

theorem thRange_some (o : Option Int) (hi : Int) (h : thRange o hi = true) :
    ∃ x, o = some x ∧ 0 ≤ x ∧ x ≤ hi := by
  cases o with
  | none => cases h
  | some x =>
    simp [thRange] at h
    exact ⟨x, rfl, h.1, h.2⟩

theorem quanticsParse_missing (body : PyVal)
    (hb : responseMissingKeys (ApiOutcome.response body) = true) :
    quanticsParseResponse body =
      apiFailure ("API response processing error: " ++
        "API response missing expected \x27data\x27 or \x27metadata\x27 keys.") := by
  cases body <;> simp_all [responseMissingKeys, quanticsParseResponse]

/-- C4: whenever an exception arises inside the tool handler — a login
failure of any kind, an HTTP status error, a transport error, a JSON
decoding error, any other exception, or the missing-keys response-parsing
error — it is caught and the handler returns a payload with
`success = false` and a non-empty error message.  (That no exception
propagates is expressed by `call_quantics_stat_api` being a total function
into `QuanticsApiResponseModel` rather than an `Except`.) -/
theorem c4_handler_errors_become_payload (auth : AuthOutcome) (api : ApiOutcome)
    (h : (isAuthError auth || isApiException api || responseMissingKeys api) = true) :
    (call_quantics_stat_api auth api).success = false ∧
    ∃ e, (call_quantics_stat_api auth api).error = some e ∧ e ≠ "" := by
  cases hA : get_quantics_auth auth with
  | error e =>
    refine ⟨by simp [call_quantics_stat_api, hA, apiFailure], 
      "Authentication failed: " ++ e,
      by simp [call_quantics_stat_api, hA, apiFailure],
      append_ne_empty _ _ (by decide)⟩
  | ok pr =>
    have hA' : isAuthError auth = false := by simp [isAuthError, hA]
    rw [hA'] at h
    simp only [Bool.false_or] at h
    cases api with
    | httpStatusError code text =>
      refine ⟨by simp [call_quantics_stat_api, hA, apiFailure],
        ("API HTTP error " ++ toString code ++ ": ") ++ text,
        by simp [call_quantics_stat_api, hA, apiFailure],
        append_ne_empty _ _ (append_ne_empty _ _ (append_ne_empty _ _ (by decide)))⟩
    | requestError m =>
      refine ⟨by simp [call_quantics_stat_api, hA, apiFailure],
        "API request error: " ++ m,
        by simp [call_quantics_stat_api, hA, apiFailure],
        append_ne_empty _ _ (by decide)⟩
    | badJson m =>
      refine ⟨by simp [call_quantics_stat_api, hA, apiFailure],
        "API response processing error: " ++ m,
        by simp [call_quantics_stat_api, hA, apiFailure],
        append_ne_empty _ _ (by decide)⟩
    | otherError m =>
      refine ⟨by simp [call_quantics_stat_api, hA, apiFailure],
        "An unexpected error occurred: " ++ m,
        by simp [call_quantics_stat_api, hA, apiFailure],
        append_ne_empty _ _ (by decide)⟩
    | response body =>
      have hmiss : responseMissingKeys (ApiOutcome.response body) = true := by
        simpa [isApiException] using h
      have hq := quanticsParse_missing body hmiss
      refine ⟨?_, "API response processing error: " ++
          "API response missing expected \x27data\x27 or \x27metadata\x27 keys.", ?_,
        append_ne_empty _ _ (by decide)⟩
      · simp [call_quantics_stat_api, hA, hq, apiFailure]
      · simp [call_quantics_stat_api, hA, hq, apiFailure]

/-- Witness for C4: failed login (HTTP 500 at the login endpoint) turns
into a structured failure payload. -/
theorem c4_witness :
    (isAuthError (AuthOutcome.httpStatusError 500 "login down") ||
      isApiException (ApiOutcome.response (PyVal.dict [])) ||
      responseMissingKeys (ApiOutcome.response (PyVal.dict []))) = true ∧
    (call_quantics_stat_api (AuthOutcome.httpStatusError 500 "login down")
        (ApiOutcome.response (PyVal.dict []))).success = false ∧
    ∃ e, (call_quantics_stat_api (AuthOutcome.httpStatusError 500 "login down")
        (ApiOutcome.response (PyVal.dict []))).error = some e ∧ e ≠ "" :=
  ⟨by decide,
   (c4_handler_errors_become_payload (AuthOutcome.httpStatusError 500 "login down")
      (ApiOutcome.response (PyVal.dict [])) (by decide)).1,
   (c4_handler_errors_become_payload (AuthOutcome.httpStatusError 500 "login down")
      (ApiOutcome.response (PyVal.dict [])) (by decide)).2⟩

/-- C5: `time_filters` validation rejects a months list whose length is not
12 (in particular 11 entries), rejects any key set other than exactly
months/daysOfWeek/daysOfMonth, rejects wrong lengths for daysOfWeek (5) and
daysOfMonth (31), and accepts a 12-entry months list when the other fields
are valid. -/
theorem c5_time_filters_validation :
    (∀ (v : List (String × List Bool)) (l : List Bool),
      dlookup v "months" = some l → l.length ≠ 12 →
      validate_time_filters_structure v = false) ∧
    (∀ v : List (String × List Bool),
      keySetEq (v.map Prod.fst) ["months", "daysOfWeek", "daysOfMonth"] = false →
      validate_time_filters_structure v = false) ∧
    (∀ (v : List (String × List Bool)) (l : List Bool),
      dlookup v "daysOfWeek" = some l → l.length ≠ 5 →
      validate_time_filters_structure v = false) ∧
    (∀ (v : List (String × List Bool)) (l : List Bool),
      dlookup v "daysOfMonth" = some l → l.length ≠ 31 →
      validate_time_filters_structure v = false) ∧
    (∀ (v : List (String × List Bool)) (lm lw ld : List Bool),
      dlookup v "months" = some lm → lm.length = 12 →
      dlookup v "daysOfWeek" = some lw → lw.length = 5 →
      dlookup v "daysOfMonth" = some ld → ld.length = 31 →
      keySetEq (v.map Prod.fst) ["months", "daysOfWeek", "daysOfMonth"] = true →
      validate_time_filters_structure v = true) := by
  refine ⟨?_, ?_, ?_, ?_, ?_⟩
  · intro v l hl hn
    simp [validate_time_filters_structure, hl, hn]
  · intro v hk
    simp [validate_time_filters_structure, hk]
  · intro v l hl hn
    simp [validate_time_filters_structure, hl, hn]
  · intro v l hl hn
    simp [validate_time_filters_structure, hl, hn]
  · intro v lm lw ld h1 h2 h3 h4 h5 h6 hk
    simp [validate_time_filters_structure, h1, h2, h3, h4, h5, h6, hk]

/-- Witness for C5: the concrete valid mapping is accepted; the one whose
months list has 11 entries is rejected. -/
theorem c5_witness :
    validate_time_filters_structure exGoodTF = true ∧
    validate_time_filters_structure exBadTF = false :=
  ⟨c5_time_filters_validation.2.2.2.2 exGoodTF (List.replicate 12 true)
      (List.replicate 5 true) (List.replicate 31 false)
      (by decide) (by decide) (by decide) (by decide) (by decide) (by decide) (by decide),
   c5_time_filters_validation.1 exBadTF (List.replicate 11 true) (by decide) (by decide)⟩

/-- C6: whenever `QuanticsToolInput` validation accepts an input, the asset
is one of the enumerated codes, both dates are integers within
20120101..20241231 with `end_date >= start_date`, `bar_period >= 1`, and
`trading_hours` has exactly the keys startHour/startMin/endHour/endMin with
hours in 0..23 and minutes in 0..59; contrapositively, validation fails
(returning a failure instead of invoking the handler) on any input
violating one of these constraints. -/
theorem c6_input_validation_necessary (i : RawToolInput)
    (h : validateQuanticsInput i = true) :
    allowedAssets.contains i.asset = true ∧
    20120101 ≤ i.start_date ∧ i.start_date ≤ 20241231 ∧
    20120101 ≤ i.end_date ∧ i.end_date ≤ 20241231 ∧
    i.start_date ≤ i.end_date ∧
    1 ≤ i.bar_period ∧
    keySetEq (i.trading_hours.map Prod.fst)
      ["startHour", "startMin", "endHour", "endMin"] = true ∧
    (∃ sh, dlookup i.trading_hours "startHour" = some sh ∧ 0 ≤ sh ∧ sh ≤ 23) ∧
    (∃ sm, dlookup i.trading_hours "startMin" = some sm ∧ 0 ≤ sm ∧ sm ≤ 59) ∧
    (∃ eh, dlookup i.trading_hours "endHour" = some eh ∧ 0 ≤ eh ∧ eh ≤ 23) ∧
    (∃ em, dlookup i.trading_hours "endMin" = some em ∧ 0 ≤ em ∧ em ≤ 59) := by
  simp only [validateQuanticsInput, validate_trading_hours_structure,
    Bool.and_eq_true, Bool.or_eq_true, decide_eq_true_eq] at h
  obtain ⟨⟨⟨⟨⟨⟨⟨⟨ha, h1⟩, h2⟩, h3⟩, h4⟩, h5⟩, h6⟩, _⟩,
    ⟨⟨⟨⟨hk, hsh⟩, hsm⟩, heh⟩, hem⟩⟩ := h
  have hcross : i.start_date ≤ i.end_date := by
    rcases h5 with h50 | h5le
    · omega
    · exact h5le
  exact ⟨ha, h1, h2, h3, h4, hcross, h6, hk,
    thRange_some _ _ hsh, thRange_some _ _ hsm,
    thRange_some _ _ heh, thRange_some _ _ hem⟩

/-- Witness for C6 at the fully valid concrete input. -/
theorem c6_witness :
    validateQuanticsInput exGoodInput = true ∧
    allowedAssets.contains exGoodInput.asset = true ∧
    exGoodInput.start_date ≤ exGoodInput.end_date :=
  ⟨by decide,
   (c6_input_validation_necessary exGoodInput (by decide)).1,
   (c6_input_validation_necessary exGoodInput (by decide)).2.2.2.2.2.1⟩
